import Mathlib

/-!
Shallow embedding of `src/api/update/index.js` (datasuite-update-api):
an update-check endpoint consisting of a platform-string resolver
(`validateInput`) and an HTTP decision handler (`handler`), together with
the fetch-absorbing adapter (`getLatestJSON`).

JavaScript strings that may be `null`/`undefined` are modelled as
`Option String`; JS falsiness of such a value (`!x`) holds for `none`
and `some ""`.  The remote fetch is modelled by an oracle value
(`FetchOutcome`) describing what the network returned.
-/

namespace UpdateApi

/-! ### Constants (lines 17-35 of the source) -/

def INSIDER : String := "insider"
def STABLE : String := "stable"

def DARWIN : String := "darwin"
def WINDOWS : String := "win32"
def LINUX : String := "linux"

def ARM64 : String := "arm64"
def IA32 : String := "ia32"
def X64 : String := "x64"

def SYSTEM : String := "system"
def ARCHIVE : String := "archive"
def USER : String := "user"

/-- `QUALITIES = new Set([INSIDER, STABLE])`, membership via `contains`. -/
def QUALITIES : List String := [INSIDER, STABLE]

/-- `OS = new Set([DARWIN, LINUX, WINDOWS])`. -/
def OS : List String := [DARWIN, LINUX, WINDOWS]

/-- `TYPES = new Set([ARCHIVE, USER, SYSTEM])`. -/
def TYPES : List String := [ARCHIVE, USER, SYSTEM]

/-- `ARCH = new Set([ARM64, IA32, X64])`. -/
def ARCH : List String := [ARM64, IA32, X64]

/-! ### JS-value model -/

/-- JS falsiness of a nullable string: `null`/`undefined` and `""` are falsy. -/
def falsy : Option String → Bool
  | none => true
  | some s => s = ""

/-- A JSON-ish JavaScript value, as far as the handler inspects one. -/
inductive JSVal where
  | undefinedV : JSVal
  | nullV : JSVal
  | boolV (b : Bool) : JSVal
  | numV (n : Int) : JSVal
  | strV (s : String) : JSVal
  | objV (fields : List (String × JSVal)) : JSVal

/-- JS truthiness of a `JSVal`. -/
def jsTruthy : JSVal → Bool
  | .undefinedV => false
  | .nullV => false
  | .boolV b => b
  | .numV n => n ≠ 0
  | .strV s => s ≠ ""
  | .objV _ => true

/-- `typeof v === 'object'` (true for `null` and objects). -/
def jsTypeofObject : JSVal → Bool
  | .nullV => true
  | .objV _ => true
  | _ => false

/-- Property access `v.key`: `undefined` unless `v` is an object with the key. -/
def jsGetProp (v : JSVal) (key : String) : JSVal :=
  match v with
  | .objV fields => (List.lookup key fields).getD .undefinedV
  | _ => .undefinedV

/-- Strict equality `commit === version` where `commit` is the result of
`params.get('commit')` (a string or `null`) and `version` is a `JSVal`. -/
def strictEqNullableStr (commit : Option String) (v : JSVal) : Bool :=
  match commit, v with
  | none, .nullV => true
  | some s, .strV t => s = t
  | _, _ => false

/-! ### String splitting

`String.prototype.split('-')` splits on every dash; `"".split('-')` is
`[""]`, `"a-"` gives `["a",""]`.  Modelled by structural recursion on the
character list so that it evaluates inside the kernel. -/

def splitDashAux : List Char → List Char → List String
  | [], acc => [String.mk acc.reverse]
  | c :: cs, acc =>
    if c = '-' then String.mk acc.reverse :: splitDashAux cs []
    else splitDashAux cs (c :: acc)

/-- `platform.split('-')`. -/
def splitDash (s : String) : List String :=
  splitDashAux s.toList []

/-! ### The platform resolver (`validateInput`, lines 71-102) -/

/-- The resolved `{ quality, os, arch, type }` object returned by
`validateInput`; `type` is `none` when the JS value is `undefined`. -/
structure Descriptor where
  quality : String
  os : String
  arch : String
  type : Option String
deriving DecidableEq, Repr

/-- The Windows defaulting block (lines 79-92): given the destructured
`arch` and `type` tokens, return the pair `(arch, type)` after the
`if (!type) { ... }` mutations. -/
def winDefault (arch ty : Option String) : Option String × Option String :=
  if falsy ty then
    if falsy arch then (some IA32, some SYSTEM)
    else if TYPES.contains (arch.getD "") then (some IA32, arch)
    else (arch, some SYSTEM)
  else (arch, ty)

/-- Lines 76-101 of `validateInput`, after the platform string has been
split and destructured into `os`, `arch`, `type` tokens (each possibly
`undefined`).  `Set.has` on a possibly-undefined token is modelled by
`contains` after defaulting `none` to `""`, which is in no enumeration. -/
def resolveParts (q : String) (os0 arch0 ty0 : Option String) : Option Descriptor :=
  let os := os0.getD ""
  if !(OS.contains os) then none
  else if os = WINDOWS then
    let ad := winDefault arch0 ty0
    if !(TYPES.contains (ad.2.getD "")) then none
    else if !(ARCH.contains (ad.1.getD "")) then none
    else some { quality := q, os := os, arch := ad.1.getD "", type := ad.2 }
  else if os = DARWIN then
    let arch := if falsy arch0 then some X64 else arch0
    if !(ARCH.contains (arch.getD "")) then none
    else some { quality := q, os := os, arch := arch.getD "", type := ty0 }
  else
    if !(ARCH.contains (arch0.getD "")) then none
    else some { quality := q, os := os, arch := arch0.getD "", type := ty0 }

/-- `validateInput(platform, quality)` (lines 71-102): `none` models the JS
return value `false`.  `!quality || !QUALITIES.has(quality)` rejects a
missing or empty or unknown quality; `!platform` rejects a missing or
empty platform (a present value is always a string in this model, so the
`typeof` check is vacuous); then the string is split on `-` and the first
three tokens are destructured. -/
def validateInput (platform quality : Option String) : Option Descriptor :=
  match quality with
  | none => none
  | some q =>
    if q = "" then none
    else if !(QUALITIES.contains q) then none
    else
      match platform with
      | none => none
      | some p =>
        if p = "" then none
        else
          let tokens := splitDash p
          resolveParts q (tokens.get? 0) (tokens.get? 1) (tokens.get? 2)

/-- `buildVersionUrl` (lines 41-45): the URL to `latest.json` for a
resolved descriptor; the optional `type` segment is appended only when
`type` is truthy. -/
def buildVersionUrl (input : Descriptor) : String :=
  let path :=
    if falsy input.type then input.quality ++ "/" ++ input.os ++ "/" ++ input.arch
    else input.quality ++ "/" ++ input.os ++ "/" ++ input.arch ++ "/" ++ input.type.getD ""
  "https://raw.githubusercontent.com/aphrcwaro/datasuite_public/main/" ++ path ++ "/latest.json"

/-! ### The remote fetch (`getLatestJSON`, lines 47-68)

The network is an oracle: either the `fetch` call itself rejects
(`networkFault`, caught by the `try`/`catch`), or it resolves to a
response with an `ok` flag and a body whose JSON parse either fails
(`none`, absorbed by `.catch(() => null)`) or yields a value. -/

inductive FetchOutcome where
  | networkFault : FetchOutcome
  | response (ok : Bool) (body : Option JSVal) : FetchOutcome

/-- `getLatestJSON` (lines 47-68): every failure mode — network fault,
non-`ok` status, parse failure, or a parsed value that is not a truthy
object — collapses to `null` (here `none`). -/
def getLatestJSON (outcome : FetchOutcome) : Option JSVal :=
  match outcome with
  | .networkFault => none
  | .response ok body =>
    if !ok then none
    else
      match body with
      | none => none
      | some data =>
        if !(jsTruthy data && jsTypeofObject data) then none
        else some data

/-! ### The HTTP handler (lines 104-156) -/

/-- The extracted request data the handler consumes: `req.method`, and the
three query parameters as returned by `params.get` (`null` = `none`). -/
structure Request where
  method : Option String
  platform : Option String
  quality : Option String
  commit : Option String

/-- A response body: nothing (`res.end()`), or `JSON.stringify` of a value
(`sendJson`); the body is kept as the value being serialized. -/
inductive Body where
  | empty : Body
  | json (v : JSVal) : Body

/-- The response the handler produced: status code, headers in the order
they were set, and the body. -/
structure Response where
  status : Nat
  headers : List (String × String)
  body : Body

/-- `sendNoContent` (lines 104-107) together with the `Cache-Control`
header set on line 141 before either 204 exit. -/
def noContentResponse : Response :=
  { status := 204, headers := [("Cache-Control", "s-maxage=14400")], body := .empty }

/-- The 405 response of lines 118-121: `Allow` is set first, then
`sendJson` sets the `Content-Type` header and the error body. -/
def methodNotAllowedResponse : Response :=
  { status := 405
    headers := [("Allow", "GET"), ("Content-Type", "application/json; charset=utf-8")]
    body := .json (.objV [("error", .strV "Method Not Allowed")]) }

/-- The 404 response of lines 133-136: no header is set on this path. -/
def notFoundResponse : Response :=
  { status := 404, headers := [], body := .empty }

/-- The 200 response of line 149: cache header (line 141), then `sendJson`
sets `Content-Type` and serializes the fetched record verbatim. -/
def okResponse (latest : JSVal) : Response :=
  { status := 200
    headers := [("Cache-Control", "s-maxage=14400"),
                ("Content-Type", "application/json; charset=utf-8")]
    body := .json latest }

/-- `handler(req, res)` (lines 115-156) as a function from the request and
the fetch oracle to the response.  `req.method && req.method !== 'GET'`
rejects a truthy non-GET method; then the platform/quality are validated,
the remote JSON fetched, the cache header set, and the
`!latest || commit === latest.version` test picks 204 or 200.  The
`catch`-all 500 branch is unreachable in this pure model: nothing in the
embedded body throws. -/
def handler (req : Request) (outcome : FetchOutcome) : Response :=
  if !(falsy req.method) && req.method != some "GET" then
    methodNotAllowedResponse
  else
    match validateInput req.platform req.quality with
    | none => notFoundResponse
    | some _input =>
      match getLatestJSON outcome with
      | none => noContentResponse
      | some latest =>
        if strictEqNullableStr req.commit (jsGetProp latest "version") then
          noContentResponse
        else okResponse latest

/-! ### Helper lemmas about the resolver -/

/-- Every descriptor produced by `resolveParts` carries the given quality,
an os and arch from the closed enumerations, and — when the os is
`win32` — a defined type from the package-type enumeration. -/
theorem resolveParts_valid (q : String) (os0 arch0 ty0 : Option String) (d : Descriptor)
    (h : resolveParts q os0 arch0 ty0 = some d) :
    d.quality = q ∧ d.os ∈ OS ∧ d.arch ∈ ARCH ∧
      (d.os = WINDOWS → ∃ t, d.type = some t ∧ t ∈ TYPES) := by
  simp only [resolveParts] at h
  split_ifs at h <;> try simp at h
  · rename_i c1 c2 c3 c4
    simp at c1 c3 c4
    subst h
    exact ⟨rfl, c1, c4, fun _ => by
      rcases hw : (winDefault arch0 ty0).2 with _ | t
      · rw [hw] at c3; exact absurd c3 (by decide)
      · rw [hw] at c3; exact ⟨t, rfl, by simpa using c3⟩⟩
  · rename_i c1 c2 c5 c6 c7
    simp at c1
    subst h
    exact ⟨rfl, c1, (by decide : X64 ∈ ARCH), fun hw => absurd hw c2⟩
  · rename_i c1 c2 c5 c6 c8
    simp at c1 c8
    subst h
    exact ⟨rfl, c1, c8, fun hw => absurd hw c2⟩
  · rename_i c1 c2 c5 c9
    simp at c1 c9
    subst h
    exact ⟨rfl, c1, c9, fun hw => absurd hw c2⟩

/-- Every descriptor produced by `validateInput` has a quality, os and arch
from the closed enumerations, and a valid defined type when the os is
`win32`.  (The type of a non-`win32` platform is passed through
unchecked.) -/
theorem validateInput_valid (p q : Option String) (d : Descriptor)
    (h : validateInput p q = some d) :
    d.quality ∈ QUALITIES ∧ d.os ∈ OS ∧ d.arch ∈ ARCH ∧
      (d.os = WINDOWS → ∃ t, d.type = some t ∧ t ∈ TYPES) := by
  cases q with
  | none => exact absurd h (by simp [validateInput])
  | some qs =>
    simp only [validateInput] at h
    split_ifs at h with e1 e2
    cases p with
    | none => simp at h
    | some ps =>
      simp only [] at h
      split_ifs at h with e3
      obtain ⟨hq, hos, harch, hwin⟩ := resolveParts_valid _ _ _ _ _ h
      refine ⟨?_, hos, harch, hwin⟩
      rw [hq]
      simpa using e2

/-- The handler emits exactly one of four responses: 405 method rejection,
404 invalid input, 204 no content, or 200 with the fetched record. -/
theorem handler_cases (req : Request) (outcome : FetchOutcome) :
    handler req outcome = methodNotAllowedResponse ∨
    handler req outcome = notFoundResponse ∨
    handler req outcome = noContentResponse ∨
    ∃ v, handler req outcome = okResponse v := by
  unfold handler
  split_ifs with hm
  · exact Or.inl rfl
  · rcases hv : validateInput req.platform req.quality with _ | d
    · exact Or.inr (Or.inl rfl)
    · rcases hf : getLatestJSON outcome with _ | v
      · exact Or.inr (Or.inr (Or.inl rfl))
      · by_cases hc : strictEqNullableStr req.commit (jsGetProp v "version") = true
        · simp [hc]
        · simp [hc]

/-- Splitting a dash-joined concatenation splits both halves. -/
theorem splitDashAux_append (l1 l2 : List Char) (acc : List Char) :
    splitDashAux (l1 ++ '-' :: l2) acc = splitDashAux l1 acc ++ splitDashAux l2 [] := by
  induction l1 generalizing acc with
  | nil => simp [splitDashAux]
  | cons c cs ih =>
    by_cases hc : c = '-' <;> simp [splitDashAux, hc, ih]

/-- String-level version of `splitDashAux_append`. -/
theorem splitDash_append (s t : String) :
    splitDash (s ++ "-" ++ t) = splitDash s ++ splitDash t := by
  have h : (s ++ "-" ++ t).toList = s.toList ++ '-' :: t.toList := by
    simp [String.toList]
  simp [splitDash, h, splitDashAux_append]

/-- Appending a dash plus arbitrary text to a platform string that already
has at least three tokens does not change the resolver's result: only the
first three tokens of the split are destructured. -/
theorem validateInput_append_ignored (p : String) (q : Option String) (rest : String)
    (hlen : 3 ≤ (splitDash p).length) :
    validateInput (some (p ++ "-" ++ rest)) q = validateInput (some p) q := by
  have hp : p ≠ "" := by
    rintro rfl
    simp [splitDash, splitDashAux] at hlen
  have hsa := splitDash_append p rest
  have hp' : p ++ "-" ++ rest ≠ "" := by
    intro he
    rw [he] at hsa
    have h2 := congrArg List.length hsa
    rw [List.length_append] at h2
    have h3 : (splitDash "").length = 1 := rfl
    rw [h3] at h2
    omega
  cases q with
  | none => rfl
  | some qs =>
    have e0 : (splitDash p ++ splitDash rest)[0]? = (splitDash p)[0]? :=
      List.getElem?_append_left (by omega)
    have e1 : (splitDash p ++ splitDash rest)[1]? = (splitDash p)[1]? :=
      List.getElem?_append_left (by omega)
    have e2 : (splitDash p ++ splitDash rest)[2]? = (splitDash p)[2]? :=
      List.getElem?_append_left (by omega)
    simp only [validateInput]
    by_cases h1 : qs = ""
    · simp [h1]
    · by_cases h2 : qs ∈ QUALITIES
      · simp [h1, h2, hp, hp', hsa, e0, e1, e2]
      · simp [h1, h2]

/-! ### Claim theorems -/

/-- C1, counterexample: the claim as stated is false — `validateInput`
resolves `"darwin-x64-foo"` with quality `"stable"` to a descriptor whose
`type` field is defined (`some "foo"`) yet not a member of the
package-type enumeration: the third token is never checked on the darwin
path. -/
theorem C1_counterexample :
    validateInput (some "darwin-x64-foo") (some "stable") =
      some { quality := "stable", os := "darwin", arch := "x64", type := some "foo" } ∧
    "foo" ∉ TYPES := by decide

/-- C1 (amended): every descriptor `validateInput` produces has `quality`,
`os` and `arch` in their closed enumerations, and when `os` is `win32`
its `type` is defined and in the package-type enumeration; for a
non-`win32` os the third token is passed through into `type` unchecked. -/
theorem C1_descriptor_valid_or_fails (p q : Option String) (d : Descriptor)
    (h : validateInput p q = some d) :
    d.quality ∈ QUALITIES ∧ d.os ∈ OS ∧ d.arch ∈ ARCH ∧
      (d.os = WINDOWS → ∃ t, d.type = some t ∧ t ∈ TYPES) :=
  validateInput_valid p q d h

/-- C1, witness: the amended claim instantiated at
`validateInput "win32" "stable" = some ⟨stable, win32, ia32, system⟩`. -/
theorem C1_descriptor_valid_witness :
    (Descriptor.mk "stable" "win32" "ia32" (some "system")).quality ∈ QUALITIES ∧
    (Descriptor.mk "stable" "win32" "ia32" (some "system")).os ∈ OS ∧
    (Descriptor.mk "stable" "win32" "ia32" (some "system")).arch ∈ ARCH ∧
    ((Descriptor.mk "stable" "win32" "ia32" (some "system")).os = WINDOWS →
      ∃ t, (Descriptor.mk "stable" "win32" "ia32" (some "system")).type = some t ∧ t ∈ TYPES) :=
  C1_descriptor_valid_or_fails (some "win32") (some "stable") _ (by decide)

/-- C3: the Windows defaulting table — `"win32"` resolves to
`⟨stable, win32, ia32, system⟩`, `"win32-user"` reinterprets the
arch-position token as a type with default arch `ia32`, `"win32-x64"`
defaults the type to `system`; and on every `win32` result the resolved
type is defined and belongs to the package-type enumeration. -/
theorem C3_win32_defaulting :
    validateInput (some "win32") (some "stable") =
      some { quality := "stable", os := "win32", arch := "ia32", type := some "system" } ∧
    validateInput (some "win32-user") (some "stable") =
      some { quality := "stable", os := "win32", arch := "ia32", type := some "user" } ∧
    validateInput (some "win32-x64") (some "stable") =
      some { quality := "stable", os := "win32", arch := "x64", type := some "system" } ∧
    ∀ p q d, validateInput p q = some d → d.os = WINDOWS →
      ∃ t, d.type = some t ∧ t ∈ TYPES :=
  ⟨by decide, by decide, by decide,
    fun p q d h hw => (validateInput_valid p q d h).2.2.2 hw⟩

/-- C3, witness: the universally quantified conjunct instantiated at
`validateInput "win32-arm64-archive" "stable"`. -/
theorem C3_win32_defaulting_witness :
    ∃ t, (Descriptor.mk "stable" "win32" "arm64" (some "archive")).type = some t ∧ t ∈ TYPES :=
  C3_win32_defaulting.2.2.2 (some "win32-arm64-archive") (some "stable")
    (Descriptor.mk "stable" "win32" "arm64" (some "archive")) (by decide) rfl

/-- C4: for every valid quality, `"darwin"` resolves with the arch
defaulted to `x64` and `type` left undefined, while `"linux"` fails
because linux has no arch default. -/
theorem C4_darwin_default_linux_fail (q : String) (hq : q ∈ QUALITIES) :
    validateInput (some "darwin") (some q) =
      some { quality := q, os := "darwin", arch := "x64", type := none } ∧
    validateInput (some "linux") (some q) = none := by
  rcases (by simpa [QUALITIES, INSIDER, STABLE] using hq : q = "insider" ∨ q = "stable") with
    rfl | rfl
  · exact ⟨by decide, by decide⟩
  · exact ⟨by decide, by decide⟩

/-- C4, witness: instantiated at quality `"insider"`, giving the spec's
example `resolve("darwin", "insider") = {insider, darwin, x64, undefined}`. -/
theorem C4_darwin_default_witness :
    validateInput (some "darwin") (some "insider") =
      some { quality := "insider", os := "darwin", arch := "x64", type := none } ∧
    validateInput (some "linux") (some "insider") = none :=
  C4_darwin_default_linux_fail "insider" (by decide)

/-- C5: round-trip — for every os, arch and type in the closed enumerations
and every valid quality, resolving the dash-joined string `os-arch-type`
yields the descriptor with exactly those four fields. -/
theorem C5_roundtrip (os arch ty q : String)
    (hos : os ∈ OS) (harch : arch ∈ ARCH) (hty : ty ∈ TYPES) (hq : q ∈ QUALITIES) :
    validateInput (some (os ++ "-" ++ arch ++ "-" ++ ty)) (some q) =
      some { quality := q, os := os, arch := arch, type := some ty } := by
  simp [OS, ARCH, TYPES, QUALITIES, DARWIN, LINUX, WINDOWS, ARM64, IA32, X64,
    SYSTEM, ARCHIVE, USER, INSIDER, STABLE] at hos harch hty hq
  rcases hos with rfl | rfl | rfl <;> rcases harch with rfl | rfl | rfl <;>
    rcases hty with rfl | rfl | rfl <;> rcases hq with rfl | rfl <;> decide

/-- C5, witness: the round-trip at `("darwin", "arm64", "archive", "stable")`. -/
theorem C5_roundtrip_witness :
    validateInput (some ("darwin" ++ "-" ++ "arm64" ++ "-" ++ "archive")) (some "stable") =
      some { quality := "stable", os := "darwin", arch := "arm64", type := some "archive" } :=
  C5_roundtrip "darwin" "arm64" "archive" "stable" (by decide) (by decide) (by decide) (by decide)

/-- C2, counterexample: the claim as stated is false — the 404 response to
a GET request with an invalid platform has a non-405 status yet carries no
`Cache-Control` header, because line 135 returns before the header is set
on line 141. -/
theorem C2_counterexample :
    (handler { method := some "GET", platform := none, quality := none, commit := none }
      FetchOutcome.networkFault).status = 404 ∧
    (handler { method := some "GET", platform := none, quality := none, commit := none }
      FetchOutcome.networkFault).status ≠ 405 ∧
    ("Cache-Control", "s-maxage=14400") ∉
      (handler { method := some "GET", platform := none, quality := none, commit := none }
        FetchOutcome.networkFault).headers := by decide

/-- C2 (amended): every response with status 200 or 204 carries the header
`Cache-Control: s-maxage=14400`; the 404 response carries no headers at
all, since the handler returns before the cache header is set. -/
theorem C2_cache_header_on_success (req : Request) (outcome : FetchOutcome) :
    ((handler req outcome).status = 200 ∨ (handler req outcome).status = 204 →
      ("Cache-Control", "s-maxage=14400") ∈ (handler req outcome).headers) ∧
    ((handler req outcome).status = 404 → (handler req outcome).headers = []) := by
  rcases handler_cases req outcome with h | h | h | ⟨v, h⟩ <;> rw [h]
  · exact ⟨fun hc => by simp [methodNotAllowedResponse] at hc,
      fun hc => by simp [methodNotAllowedResponse] at hc⟩
  · exact ⟨fun hc => by simp [notFoundResponse] at hc, fun _ => rfl⟩
  · exact ⟨fun _ => by decide, fun hc => by simp [noContentResponse] at hc⟩
  · exact ⟨fun _ => by simp [okResponse], fun hc => by simp [okResponse] at hc⟩

/-- C2, witness: the amended claim instantiated at a 204 response (GET,
valid platform, failing fetch). -/
theorem C2_cache_header_witness :
    ("Cache-Control", "s-maxage=14400") ∈
      (handler (Request.mk (some "GET") (some "darwin") (some "stable") none)
        FetchOutcome.networkFault).headers :=
  (C2_cache_header_on_success
    (Request.mk (some "GET") (some "darwin") (some "stable") none)
    FetchOutcome.networkFault).1 (Or.inr (by decide))

/-- C6: every upstream failure mode — a network-level fault, a response
with a non-success status, a body whose JSON parse fails, and a parsed
value that is not a truthy object — is converted to `none` at the fetch
boundary by `getLatestJSON`; and for every GET request with a valid
platform/quality whose fetch was absorbed to `none`, the handler responds
204 No Content with an empty body, never 500. -/
theorem C6_fetch_failure_gives_204 :
    getLatestJSON FetchOutcome.networkFault = none ∧
    (∀ body, getLatestJSON (FetchOutcome.response false body) = none) ∧
    getLatestJSON (FetchOutcome.response true none) = none ∧
    (∀ v, (jsTruthy v && jsTypeofObject v) = false →
      getLatestJSON (FetchOutcome.response true (some v)) = none) ∧
    (∀ req outcome d, req.method = some "GET" →
      validateInput req.platform req.quality = some d →
      getLatestJSON outcome = none →
      handler req outcome = noContentResponse ∧ (handler req outcome).status ≠ 500) := by
  refine ⟨rfl, fun body => by simp [getLatestJSON], rfl,
    fun v hv => by simp [getLatestJSON, hv], fun req outcome d hm hv hf => ?_⟩
  have hh : handler req outcome = noContentResponse := by
    unfold handler
    simp [hm, hv, hf, falsy]
  exact ⟨hh, by rw [hh]; decide⟩

/-- C6, witness: a valid GET request whose fetch came back with a
non-success HTTP status yields the 204 response. -/
theorem C6_fetch_failure_witness :
    handler (Request.mk (some "GET") (some "win32-x64") (some "stable") (some "abc"))
      (FetchOutcome.response false (some (JSVal.objV []))) = noContentResponse ∧
    (handler (Request.mk (some "GET") (some "win32-x64") (some "stable") (some "abc"))
      (FetchOutcome.response false (some (JSVal.objV [])))).status ≠ 500 :=
  C6_fetch_failure_gives_204.2.2.2.2 _ _
    { quality := "stable", os := "win32", arch := "x64", type := some "system" }
    rfl (by decide) rfl

/-- C7: a truthy request method other than GET is rejected with the 405
response — status 405, `Allow: GET` header, `Content-Type` header and the
`{"error": "Method Not Allowed"}` body — and the response is the same
constant whatever the platform, quality, commit and fetch outcome are:
the rejection precedes all parsing and the remote fetch. -/
theorem C7_method_not_allowed (m : String) (hne : m ≠ "") (hget : m ≠ "GET")
    (platform quality commit : Option String) (outcome : FetchOutcome) :
    handler { method := some m, platform := platform, quality := quality, commit := commit }
      outcome = methodNotAllowedResponse := by
  unfold handler
  simp [falsy, hne, hget]

/-- C7, witness: a POST request with otherwise valid parameters is
rejected with the 405 response. -/
theorem C7_method_not_allowed_witness :
    handler (Request.mk (some "POST") (some "win32") (some "stable") (some "abc"))
      FetchOutcome.networkFault = methodNotAllowedResponse :=
  C7_method_not_allowed "POST" (by decide) (by decide) _ _ _ FetchOutcome.networkFault

/-- C8: when the fetch yields a record, the strict comparison of the
client-supplied commit with the record's `version` field decides the
response — equal gives the 204 No Content response regardless of the rest
of the record, unequal gives 200 with the JSON content type and the
record passed through verbatim as the body. -/
theorem C8_version_decides_response (req : Request) (outcome : FetchOutcome)
    (d : Descriptor) (v : JSVal)
    (hm : req.method = some "GET")
    (hv : validateInput req.platform req.quality = some d)
    (hf : getLatestJSON outcome = some v) :
    (strictEqNullableStr req.commit (jsGetProp v "version") = true →
      handler req outcome = noContentResponse) ∧
    (strictEqNullableStr req.commit (jsGetProp v "version") = false →
      handler req outcome = okResponse v) := by
  constructor <;> intro hc <;> unfold handler <;> simp [hm, hv, hf, hc, falsy]

/-- C8, witness: a record whose version differs from the supplied commit
is returned verbatim with status 200. -/
theorem C8_version_decides_witness :
    handler (Request.mk (some "GET") (some "win32") (some "stable") (some "old"))
      (FetchOutcome.response true
        (some (JSVal.objV [("version", JSVal.strV "new"), ("url", JSVal.strV "u")]))) =
      okResponse (JSVal.objV [("version", JSVal.strV "new"), ("url", JSVal.strV "u")]) :=
  (C8_version_decides_response
    (Request.mk (some "GET") (some "win32") (some "stable") (some "old"))
    (FetchOutcome.response true
      (some (JSVal.objV [("version", JSVal.strV "new"), ("url", JSVal.strV "u")])))
    { quality := "stable", os := "win32", arch := "ia32", type := some "system" }
    (JSVal.objV [("version", JSVal.strV "new"), ("url", JSVal.strV "u")])
    rfl (by decide) rfl).2 rfl

/-- C9: dash-separated tokens beyond the third are silently ignored — for
any platform string that already splits into at least three tokens,
appending a dash and arbitrary further text leaves the resolver's result
unchanged; in particular `"win32-x64-user-anything"` resolves exactly
like `"win32-x64-user"`, to `{stable, win32, x64, user}`. -/
theorem C9_extra_tokens_ignored :
    (∀ p q rest, 3 ≤ (splitDash p).length →
      validateInput (some (p ++ "-" ++ rest)) q = validateInput (some p) q) ∧
    validateInput (some "win32-x64-user-anything") (some "stable") =
      some { quality := "stable", os := "win32", arch := "x64", type := some "user" } ∧
    validateInput (some "win32-x64-user-anything") (some "stable") =
      validateInput (some "win32-x64-user") (some "stable") :=
  ⟨fun p q rest hlen => validateInput_append_ignored p q rest hlen, by decide, by decide⟩

/-- C9, witness: the universally quantified conjunct instantiated at the
example of the claim. -/
theorem C9_extra_tokens_witness :
    validateInput (some ("win32-x64-user" ++ "-" ++ "anything")) (some "stable") =
      validateInput (some "win32-x64-user") (some "stable") :=
  C9_extra_tokens_ignored.1 "win32-x64-user" (some "stable") "anything" (by decide)

/-- C10: the commit parameter is never validated — when it is absent
(`null`) and the fetched record's `version` field is a string, the strict
equality is false, so the handler responds 200 with the record as the
body rather than 204. -/
theorem C10_null_commit_yields_200 (req : Request) (outcome : FetchOutcome)
    (d : Descriptor) (v : JSVal) (s : String)
    (hm : req.method = some "GET")
    (hv : validateInput req.platform req.quality = some d)
    (hf : getLatestJSON outcome = some v)
    (hc : req.commit = none)
    (hver : jsGetProp v "version" = JSVal.strV s) :
    handler req outcome = okResponse v := by
  unfold handler
  simp [hm, hv, hf, hc, hver, falsy, strictEqNullableStr]

/-- C10, witness: an absent commit with a string-valued version yields the
200 response carrying the record. -/
theorem C10_null_commit_witness :
    handler (Request.mk (some "GET") (some "darwin") (some "insider") none)
      (FetchOutcome.response true (some (JSVal.objV [("version", JSVal.strV "abc")]))) =
      okResponse (JSVal.objV [("version", JSVal.strV "abc")]) :=
  C10_null_commit_yields_200 _ _
    { quality := "insider", os := "darwin", arch := "x64", type := none }
    (JSVal.objV [("version", JSVal.strV "abc")]) "abc"
    rfl (by decide) rfl rfl rfl

end UpdateApi
